import Mathlib

/-!
Shallow embedding of the animation and state-interpolation core of the
WinIsland dynamic-island overlay (`src/source/media_widget.py`, class
`DynamicIsland`), together with proofs about its metadata-synchronisation
policy, scroll state machine, spring physics, repaint predicate, playback
position extrapolation and visualizer.

Modelling conventions:
* Python floats are modelled as exact rationals (`ℚ`) wherever the code
  performs only field arithmetic and comparisons; the visualizer bar
  magnitudes, whose update takes `math.sin` and a fractional power, are
  modelled over `ℝ`.
* Qt image operations (`QPixmap.loadFromData`, center-pixel sampling,
  blurred-art generation) are external library calls; decoding success and
  image dimensions are modelled by an oracle record `ImgOracle` passed to
  `onMetadataSync`, and artwork values are identified by their byte
  payloads.
* `time.time()` samples are passed in explicitly as the `now` argument.
* Repaint requests (`self.update()`) are modelled as the `Bool` returned by
  `gameLoop`; window geometry writes (`update_geometry`) are modelled as the
  `Bool` returned by `springStep` (`true` when geometry was updated).
* The wall-clock text (`update_clock_text`) and screen width are pure
  rendering concerns and are not part of the modelled state.
-/

namespace WinIsland

-- Constants from `config.py`.
def IDLE_W : ℚ := 200
def IDLE_H : ℚ := 35
def HOVER_W : ℚ := 230
def HOVER_H : ℚ := 42
def EXPAND_W : ℚ := 520
def EXPAND_H : ℚ := 220
def MEDIA_IDLE_W : ℚ := 300
def MEDIA_TEMP_W : ℚ := 350
def MEDIA_HOVER_W : ℚ := 330
def TEMP_MODE_DURATION : ℚ := 5
def SPRING_STIFFNESS : ℚ := 15/100
def SPRING_DAMPING : ℚ := 62/100

/-- Per-button animation state: `btn_anim[key]` (`scale`, `offset`),
`btn_hover_anims[key]` and `btn_hover_states[key]`. -/
structure Btn where
  scale : ℚ
  offset : ℚ
  hoverAnim : ℚ
  hoverState : Bool
  deriving DecidableEq

/-- The scroll sub-state of the marquee state machine:
`scroll_x`, `scroll_wait_timer` and `scroll_direction`
(`0` waiting, `1` forward, `-1` backward, as in the code). -/
structure Scroll where
  x : ℚ
  wait : ℚ
  dir : ℤ
  deriving DecidableEq

/-- The spring physics sub-state: `current_w/h` and `vel_w/h`. -/
structure Spring where
  cw : ℚ
  ch : ℚ
  vw : ℚ
  vh : ℚ
  deriving DecidableEq

/-- The mutable state of `DynamicIsland` relevant to the animation core,
field for field after the `_init_*` methods of `media_widget.py`. -/
structure IslandState where
  -- `_init_physics_state`
  current_w : ℚ
  current_h : ℚ
  target_w : ℚ
  target_h : ℚ
  vel_w : ℚ
  vel_h : ℚ
  -- `_init_button_state`
  btn_prev : Btn
  btn_play : Btn
  btn_next : Btn
  -- `_init_visualizer_state` (`vis_count` is the fixed 100)
  vis_bars : Fin 100 → ℝ
  vis_offsets : Fin 100 → ℝ
  vis_multiplier : ℚ
  -- `_init_art_state`
  art_flip_progress : ℚ
  art_fade_progress : ℚ
  prev_album_art : Option (List ℕ)
  is_flipping_art : Bool
  is_fading_art : Bool
  art_is_square : Bool
  cd_rotation : ℚ
  box_fade_anim : ℚ
  dominant_color : ℤ × ℤ × ℤ
  -- `_init_text_state`
  temp_mode_active : Bool
  temp_mode_start_time : ℚ
  temp_mode_progress : ℚ
  text_change_progress : ℚ
  scroll_x : ℚ
  scroll_wait_timer : ℚ
  scroll_direction : ℤ
  text_fits : Bool
  title_text_width : ℚ
  available_text_w : ℚ
  idle_scale_anim : ℚ
  -- `_init_media_state`
  bar_hover_anim : ℚ
  is_bar_hovered : Bool
  is_expanded : Bool
  is_hovered : Bool
  expand_progress : ℚ
  title_text : String
  raw_title : String
  artist_text : String
  is_playing : Bool
  current_album_art : Option (List ℕ)
  blurred_album_art : Option (List ℕ)
  last_img_bytes : List ℕ
  display_pos : ℚ
  media_dur : ℚ
  last_tick_time : ℚ

/-- The state built by `__init__` via the `_init_*` methods, parametrised by
the construction instant `t0` (`time.time()`) and the 100 random visualizer
phase offsets drawn at construction. -/
def initState (t0 : ℚ) (offsets : Fin 100 → ℝ) : IslandState where
  current_w := IDLE_W
  current_h := IDLE_H
  target_w := IDLE_W
  target_h := IDLE_H
  vel_w := 0
  vel_h := 0
  btn_prev := ⟨1/5, 0, 0, false⟩
  btn_play := ⟨1/5, 0, 0, false⟩
  btn_next := ⟨1/5, 0, 0, false⟩
  vis_bars := fun _ => 0
  vis_offsets := offsets
  vis_multiplier := 0
  art_flip_progress := 0
  art_fade_progress := 0
  prev_album_art := none
  is_flipping_art := false
  is_fading_art := false
  art_is_square := true
  cd_rotation := 0
  box_fade_anim := 0
  dominant_color := (20, 20, 20)
  temp_mode_active := false
  temp_mode_start_time := 0
  temp_mode_progress := 0
  text_change_progress := 1
  scroll_x := 0
  scroll_wait_timer := 0
  scroll_direction := 0
  text_fits := true
  title_text_width := 0
  available_text_w := 0
  idle_scale_anim := 1
  bar_hover_anim := 0
  is_bar_hovered := false
  is_expanded := false
  is_hovered := false
  expand_progress := 0
  title_text := "Idle"
  raw_title := ""
  artist_text := ""
  is_playing := false
  current_album_art := none
  blurred_album_art := none
  last_img_bytes := []
  display_pos := 0
  media_dur := 0
  last_tick_time := t0

/-- Oracle for the external Qt image library: `decode` returns the pixel
dimensions `(width, height)` when `QPixmap.loadFromData` succeeds and `none`
when the bytes are undecodable; `domColor` is the center-pixel colour read
by `img.pixelColor`. -/
structure ImgOracle where
  decode : List ℕ → Option (ℕ × ℕ)
  domColor : List ℕ → ℤ × ℤ × ℤ

/-- Lines 159-163 of `on_metadata_sync`: unconditional raw-title, title,
artist (40-character truncation with ellipsis) and duration updates. -/
def baseSync (title artist : String) (dur : ℚ) (s : IslandState) : IslandState :=
  { s with raw_title := title, title_text := title,
           artist_text :=
             if artist.length > 40 then artist.take 40 ++ "..." else artist,
           media_dur := dur }

/-- Lines 165-175 of `on_metadata_sync`: the `if track_changed:` block
(temp-mode activation, text-blend and scroll resets).  `changed` is the
`track_changed` flag computed before `raw_title` was overwritten. -/
def trackReset (changed : Bool) (now : ℚ) (title : String)
    (s : IslandState) : IslandState :=
  if changed then
    { s with
      temp_mode_active := if title = "Idle" then false else true,
      temp_mode_start_time :=
        if title = "Idle" then s.temp_mode_start_time else now,
      text_change_progress := 0,
      scroll_x := 0,
      scroll_wait_timer := 5,
      scroll_direction := 0 }
  else s

/-- Lines 177-213 of `on_metadata_sync`: the artwork `if/elif` chain.  New
non-empty bytes that decode replace the art and start both transitions; new
non-empty bytes that fail to decode fall through with no state change;
empty bytes with previously stored bytes run the removal transition. -/
def artSync (oracle : ImgOracle) (imgBytes : List ℕ)
    (s : IslandState) : IslandState :=
  if imgBytes ≠ [] ∧ imgBytes ≠ s.last_img_bytes then
    match oracle.decode imgBytes with
    | some (w, h) =>
      { s with
        prev_album_art := s.current_album_art,
        current_album_art := some imgBytes,
        last_img_bytes := imgBytes,
        blurred_album_art := some imgBytes,
        art_is_square :=
          if 0 < w ∧ 0 < h then
            decide ((9/10 : ℚ) < (w : ℚ) / (h : ℚ) ∧ (w : ℚ) / (h : ℚ) < 11/10)
          else true,
        dominant_color := oracle.domColor imgBytes,
        art_flip_progress := 0,
        is_flipping_art := true,
        art_fade_progress := 0,
        is_fading_art := true,
        box_fade_anim := 0 }
    | none => s
  else if imgBytes = [] ∧ s.last_img_bytes ≠ [] then
    { s with
      prev_album_art := s.current_album_art,
      current_album_art := none,
      blurred_album_art := none,
      last_img_bytes := [],
      dominant_color := (20, 20, 20),
      art_is_square := true,
      art_flip_progress := 0,
      is_flipping_art := true,
      art_fade_progress := 0,
      is_fading_art := true,
      box_fade_anim := 0 }
  else s

/-- Lines 215-224 of `on_metadata_sync`: the playback-position and
play-state adoption policy (glitch-zero filtering, drift threshold). -/
def posAdopt (changed : Bool) (isPlaying : Bool) (remotePos : ℚ)
    (s : IslandState) : IslandState :=
  -- `diff` in the code is `|remotePos - s.display_pos|`, and
  -- `is_glitch_zero` is `remotePos = 0 ∧ s.display_pos > 5`.
  if changed then
    { s with display_pos := remotePos, is_playing := isPlaying }
  else if ¬ (remotePos = 0 ∧ s.display_pos > 5) then
    { s with
      display_pos :=
        if |remotePos - s.display_pos| > 5 ∨
           (s.is_playing = false ∧ |remotePos - s.display_pos| > 1/2)
        then remotePos
        else s.display_pos,
      is_playing := isPlaying }
  else s

/-- `DynamicIsland.on_metadata_sync(title, artist, is_playing, remote_pos,
dur, img_bytes)`: apply one metadata snapshot to the state.  `now` is the
`time.time()` sample taken on track change. -/
def onMetadataSync (oracle : ImgOracle) (now : ℚ) (title artist : String)
    (isPlaying : Bool) (remotePos dur : ℚ) (imgBytes : List ℕ)
    (s : IslandState) : IslandState :=
  let track_changed : Bool := s.raw_title != title
  posAdopt track_changed isPlaying remotePos
    (artSync oracle imgBytes
      (trackReset track_changed now title (baseSync title artist dur s)))

@[simp] lemma baseSync_proj (title artist : String) (dur : ℚ) (s : IslandState) :
    (baseSync title artist dur s).display_pos = s.display_pos ∧
    (baseSync title artist dur s).is_playing = s.is_playing ∧
    (baseSync title artist dur s).scroll_x = s.scroll_x ∧
    (baseSync title artist dur s).scroll_wait_timer = s.scroll_wait_timer ∧
    (baseSync title artist dur s).scroll_direction = s.scroll_direction ∧
    (baseSync title artist dur s).temp_mode_active = s.temp_mode_active ∧
    (baseSync title artist dur s).temp_mode_start_time = s.temp_mode_start_time ∧
    (baseSync title artist dur s).prev_album_art = s.prev_album_art ∧
    (baseSync title artist dur s).current_album_art = s.current_album_art ∧
    (baseSync title artist dur s).blurred_album_art = s.blurred_album_art ∧
    (baseSync title artist dur s).last_img_bytes = s.last_img_bytes ∧
    (baseSync title artist dur s).is_flipping_art = s.is_flipping_art ∧
    (baseSync title artist dur s).is_fading_art = s.is_fading_art ∧
    (baseSync title artist dur s).art_flip_progress = s.art_flip_progress ∧
    (baseSync title artist dur s).art_fade_progress = s.art_fade_progress ∧
    (baseSync title artist dur s).title_text = title ∧
    (baseSync title artist dur s).raw_title = title ∧
    (baseSync title artist dur s).media_dur = dur ∧
    (baseSync title artist dur s).artist_text =
      (if artist.length > 40 then artist.take 40 ++ "..." else artist) := by
  unfold baseSync; simp

@[simp] lemma trackReset_proj (changed : Bool) (now : ℚ) (title : String)
    (s : IslandState) :
    (trackReset changed now title s).display_pos = s.display_pos ∧
    (trackReset changed now title s).is_playing = s.is_playing ∧
    (trackReset changed now title s).title_text = s.title_text ∧
    (trackReset changed now title s).raw_title = s.raw_title ∧
    (trackReset changed now title s).artist_text = s.artist_text ∧
    (trackReset changed now title s).media_dur = s.media_dur ∧
    (trackReset changed now title s).prev_album_art = s.prev_album_art ∧
    (trackReset changed now title s).current_album_art = s.current_album_art ∧
    (trackReset changed now title s).blurred_album_art = s.blurred_album_art ∧
    (trackReset changed now title s).last_img_bytes = s.last_img_bytes ∧
    (trackReset changed now title s).is_flipping_art = s.is_flipping_art ∧
    (trackReset changed now title s).is_fading_art = s.is_fading_art ∧
    (trackReset changed now title s).art_flip_progress = s.art_flip_progress ∧
    (trackReset changed now title s).art_fade_progress = s.art_fade_progress := by
  unfold trackReset; split <;> simp

@[simp] lemma artSync_proj (o : ImgOracle) (b : List ℕ) (s : IslandState) :
    (artSync o b s).display_pos = s.display_pos ∧
    (artSync o b s).is_playing = s.is_playing ∧
    (artSync o b s).scroll_x = s.scroll_x ∧
    (artSync o b s).scroll_wait_timer = s.scroll_wait_timer ∧
    (artSync o b s).scroll_direction = s.scroll_direction ∧
    (artSync o b s).temp_mode_active = s.temp_mode_active ∧
    (artSync o b s).temp_mode_start_time = s.temp_mode_start_time ∧
    (artSync o b s).title_text = s.title_text ∧
    (artSync o b s).raw_title = s.raw_title ∧
    (artSync o b s).artist_text = s.artist_text ∧
    (artSync o b s).media_dur = s.media_dur := by
  unfold artSync; repeat' split <;> simp

@[simp] lemma posAdopt_proj (changed isPlaying : Bool) (remotePos : ℚ)
    (s : IslandState) :
    (posAdopt changed isPlaying remotePos s).scroll_x = s.scroll_x ∧
    (posAdopt changed isPlaying remotePos s).scroll_wait_timer = s.scroll_wait_timer ∧
    (posAdopt changed isPlaying remotePos s).scroll_direction = s.scroll_direction ∧
    (posAdopt changed isPlaying remotePos s).temp_mode_active = s.temp_mode_active ∧
    (posAdopt changed isPlaying remotePos s).temp_mode_start_time = s.temp_mode_start_time ∧
    (posAdopt changed isPlaying remotePos s).title_text = s.title_text ∧
    (posAdopt changed isPlaying remotePos s).raw_title = s.raw_title ∧
    (posAdopt changed isPlaying remotePos s).artist_text = s.artist_text ∧
    (posAdopt changed isPlaying remotePos s).media_dur = s.media_dur ∧
    (posAdopt changed isPlaying remotePos s).prev_album_art = s.prev_album_art ∧
    (posAdopt changed isPlaying remotePos s).current_album_art = s.current_album_art ∧
    (posAdopt changed isPlaying remotePos s).blurred_album_art = s.blurred_album_art ∧
    (posAdopt changed isPlaying remotePos s).last_img_bytes = s.last_img_bytes ∧
    (posAdopt changed isPlaying remotePos s).is_flipping_art = s.is_flipping_art ∧
    (posAdopt changed isPlaying remotePos s).is_fading_art = s.is_fading_art ∧
    (posAdopt changed isPlaying remotePos s).art_flip_progress = s.art_flip_progress ∧
    (posAdopt changed isPlaying remotePos s).art_fade_progress = s.art_fade_progress := by
  unfold posAdopt; repeat' split <;> simp

lemma posAdopt_not_changed_not_glitch (isPlaying : Bool) (remotePos : ℚ)
    (s : IslandState) (h : ¬ (remotePos = 0 ∧ s.display_pos > 5)) :
    posAdopt false isPlaying remotePos s =
      { s with
        display_pos :=
          if |remotePos - s.display_pos| > 5 ∨
             (s.is_playing = false ∧ |remotePos - s.display_pos| > 1/2)
          then remotePos else s.display_pos,
        is_playing := isPlaying } := by
  unfold posAdopt; simp [h]

lemma posAdopt_glitch (isPlaying : Bool) (remotePos : ℚ)
    (s : IslandState) (h : remotePos = 0 ∧ s.display_pos > 5) :
    posAdopt false isPlaying remotePos s = s := by
  unfold posAdopt; simp [h.1, h.2]

lemma posAdopt_changed (isPlaying : Bool) (remotePos : ℚ) (s : IslandState) :
    posAdopt true isPlaying remotePos s =
      { s with display_pos := remotePos, is_playing := isPlaying } := by
  unfold posAdopt; simp

/-- C1: on a metadata snapshot with the track unchanged, a glitch zero
leaves `display_pos` untouched; otherwise `display_pos` adopts the remote
position exactly when the drift exceeds 5 seconds, or exceeds 0.5 seconds
while locally paused, and `is_playing` adopts the remote value.  On a track
change, both unconditionally adopt the remote values. -/
theorem position_adoption_policy (oracle : ImgOracle) (now : ℚ)
    (title artist : String) (isPlaying : Bool) (remotePos dur : ℚ)
    (imgBytes : List ℕ) (s : IslandState) :
    (s.raw_title = title →
      ((remotePos = 0 ∧ s.display_pos > 5) →
        (onMetadataSync oracle now title artist isPlaying remotePos dur imgBytes s).display_pos
          = s.display_pos ∧
        (onMetadataSync oracle now title artist isPlaying remotePos dur imgBytes s).is_playing
          = s.is_playing) ∧
      (¬ (remotePos = 0 ∧ s.display_pos > 5) →
        (onMetadataSync oracle now title artist isPlaying remotePos dur imgBytes s).display_pos
          = (if |remotePos - s.display_pos| > 5 ∨
               (s.is_playing = false ∧ |remotePos - s.display_pos| > 1/2)
             then remotePos else s.display_pos) ∧
        (onMetadataSync oracle now title artist isPlaying remotePos dur imgBytes s).is_playing
          = isPlaying)) ∧
    (s.raw_title ≠ title →
      (onMetadataSync oracle now title artist isPlaying remotePos dur imgBytes s).display_pos
        = remotePos ∧
      (onMetadataSync oracle now title artist isPlaying remotePos dur imgBytes s).is_playing
        = isPlaying) := by
  constructor
  · intro h
    have hch : (s.raw_title != title) = false := by simp [h]
    constructor
    · intro hg
      unfold onMetadataSync
      rw [hch, posAdopt_glitch _ _ _ (by simpa using hg)]
      simp
    · intro hg
      unfold onMetadataSync
      rw [hch, posAdopt_not_changed_not_glitch _ _ _ (by simpa using hg)]
      simp
  · intro h
    have hch : (s.raw_title != title) = true := by simp [h]
    unfold onMetadataSync
    rw [hch, posAdopt_changed]
    simp

/-- Witness for `position_adoption_policy`: track unchanged, playing,
`display_pos = 10.0`, `remote_pos = 10.3` leaves `display_pos` at 10. -/
theorem position_adoption_policy_witness :
    (onMetadataSync ⟨fun _ => none, fun _ => (0, 0, 0)⟩ 0 "Song" "A" true
      (103/10) 200 []
      { initState 0 (fun _ => 0) with
        raw_title := "Song", display_pos := 10, is_playing := true }).display_pos
      = 10 := by
  have h := (position_adoption_policy ⟨fun _ => none, fun _ => (0, 0, 0)⟩ 0
    "Song" "A" true (103/10) 200 []
    { initState 0 (fun _ => 0) with
      raw_title := "Song", display_pos := 10, is_playing := true }).1 rfl
  have h2 := (h.2 (by rintro ⟨h1, -⟩; norm_num at h1)).1
  rw [h2]
  norm_num [initState]
  rw [abs_le]
  constructor <;> norm_num

/-- C6: a snapshot whose title differs from the stored raw title resets the
scroll state to `(0, 5.0, waiting)` regardless of the prior scroll state,
and activates temp mode (recording the activation time) exactly when the
new title is not the `"Idle"` sentinel. -/
theorem track_change_resets_scroll_and_temp (oracle : ImgOracle) (now : ℚ)
    (title artist : String) (isPlaying : Bool) (remotePos dur : ℚ)
    (imgBytes : List ℕ) (s : IslandState) (h : s.raw_title ≠ title) :
    (onMetadataSync oracle now title artist isPlaying remotePos dur imgBytes s).scroll_x = 0 ∧
    (onMetadataSync oracle now title artist isPlaying remotePos dur imgBytes s).scroll_wait_timer = 5 ∧
    (onMetadataSync oracle now title artist isPlaying remotePos dur imgBytes s).scroll_direction = 0 ∧
    (onMetadataSync oracle now title artist isPlaying remotePos dur imgBytes s).temp_mode_active
      = (if title = "Idle" then false else true) ∧
    (title ≠ "Idle" →
      (onMetadataSync oracle now title artist isPlaying remotePos dur imgBytes s).temp_mode_start_time = now) := by
  have hch : (s.raw_title != title) = true := by simp [h]
  unfold onMetadataSync
  rw [hch, posAdopt_changed]
  refine ⟨by simp [trackReset], by simp [trackReset], by simp [trackReset],
    by simp [trackReset], ?_⟩
  intro hI
  simp [trackReset, hI]

/-- Witness for `track_change_resets_scroll_and_temp` at a concrete
snapshot applied to the freshly constructed state. -/
theorem track_change_reset_witness :
    (onMetadataSync ⟨fun _ => none, fun _ => (0, 0, 0)⟩ 7 "Song" "A" true 0 0 []
      (initState 0 (fun _ => 0))).scroll_x = 0 ∧
    (onMetadataSync ⟨fun _ => none, fun _ => (0, 0, 0)⟩ 7 "Song" "A" true 0 0 []
      (initState 0 (fun _ => 0))).scroll_wait_timer = 5 ∧
    (onMetadataSync ⟨fun _ => none, fun _ => (0, 0, 0)⟩ 7 "Song" "A" true 0 0 []
      (initState 0 (fun _ => 0))).scroll_direction = 0 ∧
    (onMetadataSync ⟨fun _ => none, fun _ => (0, 0, 0)⟩ 7 "Song" "A" true 0 0 []
      (initState 0 (fun _ => 0))).temp_mode_active = true ∧
    (onMetadataSync ⟨fun _ => none, fun _ => (0, 0, 0)⟩ 7 "Song" "A" true 0 0 []
      (initState 0 (fun _ => 0))).temp_mode_start_time = 7 := by
  have h := track_change_resets_scroll_and_temp
    ⟨fun _ => none, fun _ => (0, 0, 0)⟩ 7 "Song" "A" true 0 0 []
    (initState 0 (fun _ => 0)) (by decide)
  exact ⟨h.1, h.2.1, h.2.2.1, by rw [h.2.2.2.1]; decide, h.2.2.2.2 (by decide)⟩

/-- C10: a glitch-zero snapshot on an unchanged track leaves both
`display_pos` and the local `is_playing` flag untouched (the remote
`is_playing` is ignored), while title, artist and duration are still
updated from the snapshot. -/
theorem glitch_zero_freezes_play_state (oracle : ImgOracle) (now : ℚ)
    (title artist : String) (isPlaying : Bool) (remotePos dur : ℚ)
    (imgBytes : List ℕ) (s : IslandState)
    (h : s.raw_title = title) (hz : remotePos = 0) (hp : s.display_pos > 5) :
    (onMetadataSync oracle now title artist isPlaying remotePos dur imgBytes s).is_playing
      = s.is_playing ∧
    (onMetadataSync oracle now title artist isPlaying remotePos dur imgBytes s).display_pos
      = s.display_pos ∧
    (onMetadataSync oracle now title artist isPlaying remotePos dur imgBytes s).title_text
      = title ∧
    (onMetadataSync oracle now title artist isPlaying remotePos dur imgBytes s).artist_text
      = (if artist.length > 40 then artist.take 40 ++ "..." else artist) ∧
    (onMetadataSync oracle now title artist isPlaying remotePos dur imgBytes s).media_dur
      = dur := by
  have hch : (s.raw_title != title) = false := by simp [h]
  unfold onMetadataSync
  rw [hch, posAdopt_glitch _ _ _ (by simpa using And.intro hz hp)]
  simp

/-- Witness for `glitch_zero_freezes_play_state`: a paused-looking remote
snapshot reporting position 0 at local position 50 is ignored for both
position and play state. -/
theorem glitch_zero_witness :
    (onMetadataSync ⟨fun _ => none, fun _ => (0, 0, 0)⟩ 0 "Song" "A" false 0 200 []
      { initState 0 (fun _ => 0) with
        raw_title := "Song", display_pos := 50, is_playing := true }).is_playing
      = true ∧
    (onMetadataSync ⟨fun _ => none, fun _ => (0, 0, 0)⟩ 0 "Song" "A" false 0 200 []
      { initState 0 (fun _ => 0) with
        raw_title := "Song", display_pos := 50, is_playing := true }).display_pos
      = 50 := by
  have h := glitch_zero_freezes_play_state
    ⟨fun _ => none, fun _ => (0, 0, 0)⟩ 0 "Song" "A" false 0 200 []
    { initState 0 (fun _ => 0) with
      raw_title := "Song", display_pos := 50, is_playing := true }
    rfl rfl (by norm_num)
  exact ⟨h.1, h.2.1⟩

lemma artSync_undecodable (o : ImgOracle) (b : List ℕ) (s : IslandState)
    (h1 : b ≠ []) (h2 : b ≠ s.last_img_bytes) (h3 : o.decode b = none) :
    artSync o b s = s := by
  unfold artSync
  rw [if_pos ⟨h1, h2⟩, h3]

/-- C9 counterexample: non-empty artwork bytes `[2]` that differ from the
stored bytes `[1]` but fail to decode do NOT clear the current art and do
NOT start the removal transition — the code silently ignores them, contrary
to the claim that they trigger the same path as a legitimate removal. -/
theorem undecodable_artwork_counterexample :
    (onMetadataSync ⟨fun _ => none, fun _ => (0, 0, 0)⟩ 0 "T" "A" true 0 0 [2]
      { initState 0 (fun _ => 0) with
        last_img_bytes := [1], current_album_art := some [1] }).current_album_art
      = some [1] ∧
    (onMetadataSync ⟨fun _ => none, fun _ => (0, 0, 0)⟩ 0 "T" "A" true 0 0 [2]
      { initState 0 (fun _ => 0) with
        last_img_bytes := [1], current_album_art := some [1] }).is_flipping_art
      = false := by
  decide

/-- C9 amended: a snapshot carrying non-empty artwork bytes that differ
from the stored bytes but fail to decode is ignored by the artwork logic:
every artwork-related field is left unchanged (no removal transition). -/
theorem undecodable_artwork_ignored (oracle : ImgOracle) (now : ℚ)
    (title artist : String) (isPlaying : Bool) (remotePos dur : ℚ)
    (imgBytes : List ℕ) (s : IslandState)
    (hne : imgBytes ≠ []) (hdiff : imgBytes ≠ s.last_img_bytes)
    (hdec : oracle.decode imgBytes = none) :
    (onMetadataSync oracle now title artist isPlaying remotePos dur imgBytes s).current_album_art
      = s.current_album_art ∧
    (onMetadataSync oracle now title artist isPlaying remotePos dur imgBytes s).prev_album_art
      = s.prev_album_art ∧
    (onMetadataSync oracle now title artist isPlaying remotePos dur imgBytes s).blurred_album_art
      = s.blurred_album_art ∧
    (onMetadataSync oracle now title artist isPlaying remotePos dur imgBytes s).last_img_bytes
      = s.last_img_bytes ∧
    (onMetadataSync oracle now title artist isPlaying remotePos dur imgBytes s).is_flipping_art
      = s.is_flipping_art ∧
    (onMetadataSync oracle now title artist isPlaying remotePos dur imgBytes s).is_fading_art
      = s.is_fading_art ∧
    (onMetadataSync oracle now title artist isPlaying remotePos dur imgBytes s).art_flip_progress
      = s.art_flip_progress ∧
    (onMetadataSync oracle now title artist isPlaying remotePos dur imgBytes s).art_fade_progress
      = s.art_fade_progress := by
  unfold onMetadataSync
  dsimp only
  rw [artSync_undecodable oracle imgBytes
    (trackReset (s.raw_title != title) now title (baseSync title artist dur s))
    hne (by simpa using hdiff) hdec]
  simp

/-- Witness for `undecodable_artwork_ignored` at the counterexample
input. -/
theorem undecodable_artwork_ignored_witness :
    (onMetadataSync ⟨fun _ => none, fun _ => (0, 0, 0)⟩ 0 "T" "A" true 0 0 [2]
      { initState 0 (fun _ => 0) with
        last_img_bytes := [1], current_album_art := some [1] }).prev_album_art
      = none ∧
    (onMetadataSync ⟨fun _ => none, fun _ => (0, 0, 0)⟩ 0 "T" "A" true 0 0 [2]
      { initState 0 (fun _ => 0) with
        last_img_bytes := [1], current_album_art := some [1] }).is_fading_art
      = false := by
  have h := undecodable_artwork_ignored ⟨fun _ => none, fun _ => (0, 0, 0)⟩
    0 "T" "A" true 0 0 [2]
    { initState 0 (fun _ => 0) with
      last_img_bytes := [1], current_album_art := some [1] }
    (by decide) (by decide) rfl
  exact ⟨h.2.1, h.2.2.2.2.2.1⟩

/-- Lines 336-337 of `_animate_scroll`: `max_scroll = title_text_width -
available_text_w`, floored at 0. -/
def maxScrollOf (ttw atw : ℚ) : ℚ :=
  if ttw - atw < 0 then 0 else ttw - atw

/-- Lines 339-360 of `_animate_scroll`: the WAIT/FORWARD/BACKWARD marquee
state machine advanced by `dt` with speed 30, run only when scrolling is
eligible and `max_scroll > 0`.  Returns the new scroll state and the
`is_scrolling` flag (true on the whole `wait_timer <= 0` branch). -/
def scrollCore (M dt : ℚ) (sc : Scroll) : Scroll × Bool :=
  if sc.wait > 0 then
    if sc.wait - dt ≤ 0 then
      ({ x := sc.x, wait := 0,
         dir := if sc.x ≤ 0 then 1 else if sc.x ≥ M then -1 else sc.dir }, false)
    else ({ sc with wait := sc.wait - dt }, false)
  else if sc.dir = 0 then ({ sc with wait := 5 }, true)
  else if sc.dir = 1 then
    if sc.x + 30 * dt ≥ M then (⟨M, 2, 0⟩, true)
    else ({ sc with x := sc.x + 30 * dt }, true)
  else if sc.dir = -1 then
    if sc.x - 30 * dt ≤ 0 then (⟨0, 5, 0⟩, true)
    else ({ sc with x := sc.x - 30 * dt }, true)
  else (sc, true)

/-- `DynamicIsland._animate_scroll(dt)`: eligibility gating around
`scrollCore`; when scrolling is ineligible the scroll state is force-reset
to `(0, 0, waiting)`. -/
def animateScroll (dt : ℚ) (s : IslandState) : IslandState × Bool :=
  let r : Scroll × Bool :=
    if ((s.is_expanded || s.temp_mode_active) && !s.text_fits) then
      if maxScrollOf s.title_text_width s.available_text_w > 0 then
        scrollCore (maxScrollOf s.title_text_width s.available_text_w) dt
          ⟨s.scroll_x, s.scroll_wait_timer, s.scroll_direction⟩
      else (⟨s.scroll_x, s.scroll_wait_timer, s.scroll_direction⟩, false)
    else (⟨0, 0, 0⟩, false)
  ({ s with scroll_x := r.1.x, scroll_wait_timer := r.1.wait,
            scroll_direction := r.1.dir }, r.2)

/-- The scroll state machine started from the reset state
(`scroll_x = 0`, `wait = 5.0`, waiting) and advanced by one `dt` per
tick. -/
def scrollRun (M : ℚ) (dts : List ℚ) : Scroll :=
  dts.foldl (fun sc d => (scrollCore M d sc).1) ⟨0, 5, 0⟩

lemma maxScrollOf_nonneg (ttw atw : ℚ) : 0 ≤ maxScrollOf ttw atw := by
  unfold maxScrollOf
  split <;> linarith

lemma scrollCore_mem (M d : ℚ) (sc : Scroll) (hM : 0 ≤ M) (hd : 0 ≤ d)
    (h0 : 0 ≤ sc.x) (h1 : sc.x ≤ M) :
    0 ≤ (scrollCore M d sc).1.x ∧ (scrollCore M d sc).1.x ≤ M := by
  unfold scrollCore
  split_ifs <;> dsimp only <;> constructor <;> linarith

lemma scrollFold_mem (M : ℚ) (hM : 0 ≤ M) :
    ∀ (dts : List ℚ), (∀ d ∈ dts, 0 ≤ d) → ∀ sc : Scroll, 0 ≤ sc.x → sc.x ≤ M →
      0 ≤ (dts.foldl (fun t d => (scrollCore M d t).1) sc).x ∧
      (dts.foldl (fun t d => (scrollCore M d t).1) sc).x ≤ M := by
  intro dts
  induction dts with
  | nil => intro _ sc h0 h1; exact ⟨h0, h1⟩
  | cons d ds ih =>
    intro hd sc h0 h1
    have hstep := scrollCore_mem M d sc hM (hd d (List.mem_cons_self _ _)) h0 h1
    simpa using ih (fun e he => hd e (List.mem_cons_of_mem _ he)) _ hstep.1 hstep.2

lemma scrollCore_forward_complete (M d : ℚ) (sc : Scroll) (h1 : sc.dir = 1)
    (hdone : (scrollCore M d sc).1.dir = 0) :
    (scrollCore M d sc).1.x = M ∧ (scrollCore M d sc).1.wait = 2 := by
  unfold scrollCore at hdone ⊢
  split_ifs at hdone ⊢ <;> simp_all

lemma scrollCore_backward_complete (M d : ℚ) (sc : Scroll) (h1 : sc.dir = -1)
    (hdone : (scrollCore M d sc).1.dir = 0) :
    (scrollCore M d sc).1.x = 0 ∧ (scrollCore M d sc).1.wait = 5 := by
  unfold scrollCore at hdone ⊢
  split_ifs at hdone ⊢ <;> simp_all

/-- C2: with the renderer-reported text measurements held fixed so that
`max_scroll` is constant, every tick sequence with nonnegative `dt` keeps
`scroll_x` within `[0, max_scroll]` starting from the reset state; a
completed forward phase ends exactly at `max_scroll` entering WAIT with
timer 2.0, and a completed backward phase ends exactly at 0 entering WAIT
with timer 5.0 (so a forward+backward cycle returns to exactly 0). -/
theorem scroll_bounds_and_cycle (ttw atw : ℚ) (dts : List ℚ)
    (hd : ∀ d ∈ dts, 0 ≤ d) :
    (0 ≤ (scrollRun (maxScrollOf ttw atw) dts).x ∧
     (scrollRun (maxScrollOf ttw atw) dts).x ≤ maxScrollOf ttw atw) ∧
    (∀ (sc : Scroll) (d : ℚ), sc.dir = 1 →
      (scrollCore (maxScrollOf ttw atw) d sc).1.dir = 0 →
      (scrollCore (maxScrollOf ttw atw) d sc).1.x = maxScrollOf ttw atw ∧
      (scrollCore (maxScrollOf ttw atw) d sc).1.wait = 2) ∧
    (∀ (sc : Scroll) (d : ℚ), sc.dir = -1 →
      (scrollCore (maxScrollOf ttw atw) d sc).1.dir = 0 →
      (scrollCore (maxScrollOf ttw atw) d sc).1.x = 0 ∧
      (scrollCore (maxScrollOf ttw atw) d sc).1.wait = 5) := by
  refine ⟨?_, ?_, ?_⟩
  · exact scrollFold_mem (maxScrollOf ttw atw) (maxScrollOf_nonneg ttw atw)
      dts hd ⟨0, 5, 0⟩ (le_refl 0) (maxScrollOf_nonneg ttw atw)
  · intro sc d h1 hdone
    exact scrollCore_forward_complete _ d sc h1 hdone
  · intro sc d h1 hdone
    exact scrollCore_backward_complete _ d sc h1 hdone

/-- Witness for `scroll_bounds_and_cycle`: text width 100, available width
10, two 1-second ticks; plus a forward completion step from
`(89, 0, forward)` with `dt = 1`. -/
theorem scroll_bounds_witness :
    (0 ≤ (scrollRun (maxScrollOf 100 10) [1, 1]).x ∧
     (scrollRun (maxScrollOf 100 10) [1, 1]).x ≤ maxScrollOf 100 10) ∧
    ((scrollCore (maxScrollOf 100 10) 1 ⟨89, 0, 1⟩).1.x = maxScrollOf 100 10 ∧
     (scrollCore (maxScrollOf 100 10) 1 ⟨89, 0, 1⟩).1.wait = 2) := by
  have h := scroll_bounds_and_cycle 100 10 [1, 1]
    (by intro d hdm; simp at hdm; norm_num [hdm])
  refine ⟨h.1, h.2.1 ⟨89, 0, 1⟩ 1 rfl ?_⟩
  norm_num [scrollCore, maxScrollOf]

/-- Lines 398-403 of `animate_spring`, one axis: `vel += force;
vel *= DAMPING` with `force = (target - current) * STIFFNESS`. -/
def newVel (T c v : ℚ) : ℚ := (v + (T - c) * SPRING_STIFFNESS) * SPRING_DAMPING

/-- Lines 398-413 of `animate_spring` with the tick's target `(Tw, Th)`
already selected: one spring integration step plus the snap-to-target
check.  The returned `Bool` records whether `update_geometry` was called
(`false` exactly when the snap branch was taken). -/
def springStep (Tw Th : ℚ) (p : Spring) : Spring × Bool :=
  if |newVel Tw p.cw p.vw| < 1/100 ∧ |newVel Th p.ch p.vh| < 1/100 ∧
     |Tw - (p.cw + newVel Tw p.cw p.vw)| < 1/10 ∧
     |Th - (p.ch + newVel Th p.ch p.vh)| < 1/10 then
    (⟨Tw, Th, newVel Tw p.cw p.vw, newVel Th p.ch p.vh⟩, false)
  else
    (⟨p.cw + newVel Tw p.cw p.vw, p.ch + newVel Th p.ch p.vh,
      newVel Tw p.cw p.vw, newVel Th p.ch p.vh⟩, true)

/-- Lines 382-396 of `animate_spring`: target selection with precedence
expanded > hovered > idle, the idle width blending toward the temp-mode
width by `temp_mode_progress` when media is present. -/
def springTarget (s : IslandState) : ℚ × ℚ :=
  if s.is_expanded then (EXPAND_W, EXPAND_H)
  else if s.is_hovered then
    (if s.title_text ≠ "Idle" then MEDIA_HOVER_W else HOVER_W, HOVER_H)
  else
    (if s.title_text ≠ "Idle" then
       MEDIA_IDLE_W + (MEDIA_TEMP_W - MEDIA_IDLE_W) * s.temp_mode_progress
     else IDLE_W, IDLE_H)

/-- `DynamicIsland.animate_spring`: recompute the target from interaction
state, then one `springStep`. -/
def animateSpring (s : IslandState) : IslandState × Bool :=
  ({ s with
     target_w := (springTarget s).1,
     target_h := (springTarget s).2,
     current_w := (springStep (springTarget s).1 (springTarget s).2
       ⟨s.current_w, s.current_h, s.vel_w, s.vel_h⟩).1.cw,
     current_h := (springStep (springTarget s).1 (springTarget s).2
       ⟨s.current_w, s.current_h, s.vel_w, s.vel_h⟩).1.ch,
     vel_w := (springStep (springTarget s).1 (springTarget s).2
       ⟨s.current_w, s.current_h, s.vel_w, s.vel_h⟩).1.vw,
     vel_h := (springStep (springTarget s).1 (springTarget s).2
       ⟨s.current_w, s.current_h, s.vel_w, s.vel_h⟩).1.vh },
   (springStep (springTarget s).1 (springTarget s).2
     ⟨s.current_w, s.current_h, s.vel_w, s.vel_h⟩).2)

/-- Iterated spring ticks under a fixed target (interaction state
unchanged). -/
def springIter (Tw Th : ℚ) (p : Spring) : ℕ → Spring
  | 0 => p
  | n + 1 => (springStep Tw Th (springIter Tw Th p n)).1

/-- Discrete Lyapunov form for the spring recurrence: with `e` the distance
to target and `v` the velocity, `lyap` contracts by exactly `31/50` (the
squared spectral radius, `DAMPING = 62/100`) each linear step. -/
def lyap (e v : ℚ) : ℚ := 186 * e^2 - 574 * e * v + 1240 * v^2

/-- Total Lyapunov energy of both axes w.r.t. a fixed target. -/
def springEnergy (Tw Th : ℚ) (p : Spring) : ℚ :=
  lyap (Tw - p.cw) p.vw + lyap (Th - p.ch) p.vh

/-- The state after a snap: current equals target exactly and both residual
velocities are below the snap threshold. -/
def snappedAt (Tw Th : ℚ) (p : Spring) : Prop :=
  p.cw = Tw ∧ p.ch = Th ∧ |p.vw| < 1/100 ∧ |p.vh| < 1/100

lemma lyap_nonneg (e v : ℚ) : 0 ≤ lyap e v := by
  unfold lyap
  nlinarith [sq_nonneg (186*e - 287*v), sq_nonneg v]

lemma lyap_contract (T c v : ℚ) :
    lyap (T - (c + newVel T c v)) (newVel T c v) = (31/50) * lyap (T - c) v := by
  unfold lyap newVel SPRING_STIFFNESS SPRING_DAMPING
  ring

lemma lyap_small_v (e v : ℚ) (h : lyap e v < 148271/1860000) : |v| < 1/100 := by
  unfold lyap at h
  have h2 : v^2 < 1/10000 := by nlinarith [sq_nonneg (186*e - 287*v)]
  rw [abs_lt]
  constructor <;> nlinarith

lemma lyap_small_e (e v : ℚ) (h : lyap e v < 148271/1860000) : |e| < 1/10 := by
  unfold lyap at h
  have h2 : e^2 < 1/1500 := by nlinarith [sq_nonneg (1240*v - 287*e)]
  rw [abs_lt]
  constructor <;> nlinarith

lemma springEnergy_nonneg (Tw Th : ℚ) (p : Spring) :
    0 ≤ springEnergy Tw Th p := by
  unfold springEnergy
  have h1 := lyap_nonneg (Tw - p.cw) p.vw
  have h2 := lyap_nonneg (Th - p.ch) p.vh
  linarith

/-- When the total energy is below the snap threshold, the next step takes
the snap branch and lands exactly on the target. -/
lemma springStep_snap_of_energy (Tw Th : ℚ) (p : Spring)
    (h : springEnergy Tw Th p < 148271/1860000) :
    (springStep Tw Th p).2 = false ∧ snappedAt Tw Th (springStep Tw Th p).1 := by
  have hw0 := lyap_nonneg (Tw - p.cw) p.vw
  have hh0 := lyap_nonneg (Th - p.ch) p.vh
  have hw : lyap (Tw - (p.cw + newVel Tw p.cw p.vw)) (newVel Tw p.cw p.vw)
      < 148271/1860000 := by
    rw [lyap_contract]
    unfold springEnergy at h
    nlinarith
  have hh : lyap (Th - (p.ch + newVel Th p.ch p.vh)) (newVel Th p.ch p.vh)
      < 148271/1860000 := by
    rw [lyap_contract]
    unfold springEnergy at h
    nlinarith
  have hc : |newVel Tw p.cw p.vw| < 1/100 ∧ |newVel Th p.ch p.vh| < 1/100 ∧
      |Tw - (p.cw + newVel Tw p.cw p.vw)| < 1/10 ∧
      |Th - (p.ch + newVel Th p.ch p.vh)| < 1/10 :=
    ⟨lyap_small_v _ _ hw, lyap_small_v _ _ hh,
     lyap_small_e _ _ hw, lyap_small_e _ _ hh⟩
  unfold springStep
  rw [if_pos hc]
  exact ⟨rfl, rfl, rfl, hc.1, hc.2.1⟩

/-- A snapped state stays snapped: the residual velocity decays by the
damping factor, keeps the snap condition true, and the step again lands
exactly on the target without a geometry update. -/
lemma springStep_snapped_next (Tw Th : ℚ) (p : Spring)
    (h : snappedAt Tw Th p) :
    (springStep Tw Th p).2 = false ∧ snappedAt Tw Th (springStep Tw Th p).1 := by
  obtain ⟨hcw, hch, hvw, hvh⟩ := h
  have hnw : newVel Tw p.cw p.vw = p.vw * (31/50) := by
    rw [hcw]; unfold newVel SPRING_STIFFNESS SPRING_DAMPING; ring
  have hnh : newVel Th p.ch p.vh = p.vh * (31/50) := by
    rw [hch]; unfold newVel SPRING_STIFFNESS SPRING_DAMPING; ring
  have hvw' : |newVel Tw p.cw p.vw| < 1/100 := by
    rw [hnw, abs_mul,
      show |(31/50 : ℚ)| = 31/50 from abs_of_nonneg (by norm_num)]
    linarith [hvw]
  have hvh' : |newVel Th p.ch p.vh| < 1/100 := by
    rw [hnh, abs_mul,
      show |(31/50 : ℚ)| = 31/50 from abs_of_nonneg (by norm_num)]
    linarith [hvh]
  have hew : |Tw - (p.cw + newVel Tw p.cw p.vw)| < 1/10 := by
    have h1 : |p.vw * (31/50)| < 1/100 := by rw [← hnw]; exact hvw'
    rw [hnw, hcw,
      show Tw - (Tw + p.vw * (31/50)) = -(p.vw * (31/50)) by ring, abs_neg]
    linarith [h1]
  have heh : |Th - (p.ch + newVel Th p.ch p.vh)| < 1/10 := by
    have h1 : |p.vh * (31/50)| < 1/100 := by rw [← hnh]; exact hvh'
    rw [hnh, hch,
      show Th - (Th + p.vh * (31/50)) = -(p.vh * (31/50)) by ring, abs_neg]
    linarith [h1]
  unfold springStep
  rw [if_pos ⟨hvw', hvh', hew, heh⟩]
  exact ⟨rfl, rfl, rfl, hvw', hvh'⟩

/-- A step that took the snap branch produced a snapped state. -/
lemma springStep_snapped_of_flag (Tw Th : ℚ) (p : Spring)
    (h : (springStep Tw Th p).2 = false) :
    snappedAt Tw Th (springStep Tw Th p).1 := by
  unfold springStep at h ⊢
  split_ifs at h ⊢ with hc
  exact ⟨rfl, rfl, hc.1, hc.2.1⟩

/-- A step that did not snap contracts the total energy by exactly
`31/50`. -/
lemma springStep_energy_of_flag (Tw Th : ℚ) (p : Spring)
    (h : (springStep Tw Th p).2 = true) :
    springEnergy Tw Th (springStep Tw Th p).1
      = (31/50) * springEnergy Tw Th p := by
  unfold springStep at h ⊢
  split_ifs at h ⊢
  unfold springEnergy
  dsimp only
  rw [lyap_contract, lyap_contract]
  ring

lemma exists_spring_snap_tick (Tw Th : ℚ) (p : Spring) :
    ∃ n, (springStep Tw Th (springIter Tw Th p n)).2 = false := by
  by_contra hno
  push_neg at hno
  have hflag : ∀ n, (springStep Tw Th (springIter Tw Th p n)).2 = true := by
    intro n
    cases hb : (springStep Tw Th (springIter Tw Th p n)).2 with
    | false => exact absurd hb (hno n)
    | true => rfl
  have hE : ∀ n, springEnergy Tw Th (springIter Tw Th p n)
      = (31/50)^n * springEnergy Tw Th p := by
    intro n
    induction n with
    | zero => simp [springIter]
    | succ k ih =>
      have := springStep_energy_of_flag Tw Th (springIter Tw Th p k) (hflag k)
      rw [springIter, this, ih]
      ring
  have hpos : (0 : ℚ) < (148271/1860000) / (springEnergy Tw Th p + 1) := by
    have := springEnergy_nonneg Tw Th p
    positivity
  obtain ⟨N, hN⟩ := exists_pow_lt_of_lt_one hpos (show (31/50 : ℚ) < 1 by norm_num)
  have hlt : springEnergy Tw Th (springIter Tw Th p N) < 148271/1860000 := by
    rw [hE]
    have h0 := springEnergy_nonneg Tw Th p
    have hp0 : (0 : ℚ) < springEnergy Tw Th p + 1 := by linarith
    have hpow : (0 : ℚ) ≤ (31/50 : ℚ)^N := by positivity
    have hmul : (31/50 : ℚ)^N * (springEnergy Tw Th p + 1) < 148271/1860000 := by
      calc (31/50 : ℚ)^N * (springEnergy Tw Th p + 1)
          < (148271/1860000) / (springEnergy Tw Th p + 1)
              * (springEnergy Tw Th p + 1) := mul_lt_mul_of_pos_right hN hp0
        _ = 148271/1860000 := div_mul_cancel₀ _ (ne_of_gt hp0)
    nlinarith
  exact absurd ((springStep_snap_of_energy Tw Th _ hlt).1)
    (by rw [hflag N]; simp)

/-- C3: for every initial spring state and fixed target, the snap condition
is reached after finitely many ticks, and from that tick on every tick ends
with `current_w/current_h` exactly equal to the target and performs no
geometry update. -/
theorem spring_converges_and_settles (Tw Th : ℚ) (p : Spring) :
    ∃ N, ∀ m, N ≤ m →
      (springStep Tw Th (springIter Tw Th p m)).2 = false ∧
      (springIter Tw Th p (m + 1)).cw = Tw ∧
      (springIter Tw Th p (m + 1)).ch = Th := by
  obtain ⟨n, hn⟩ := exists_spring_snap_tick Tw Th p
  have key : ∀ k, (springStep Tw Th (springIter Tw Th p (n + k))).2 = false := by
    intro k
    induction k with
    | zero => simpa using hn
    | succ j ih =>
      have hsn := springStep_snapped_of_flag _ _ _ ih
      have hnext := springStep_snapped_next Tw Th (springIter Tw Th p (n + j + 1))
        (by rw [show n + j + 1 = (n + j) + 1 from rfl, springIter]; exact hsn)
      rw [show n + (j + 1) = (n + j) + 1 from rfl]
      exact hnext.1
  refine ⟨n, ?_⟩
  intro m hm
  obtain ⟨k, rfl⟩ := Nat.exists_eq_add_of_le hm
  have hf := key k
  have hsn := springStep_snapped_of_flag _ _ _ hf
  rw [springIter]
  exact ⟨hf, hsn.1, hsn.2.1⟩

/-- Lines 296-308 of `_animate_buttons`, one button: hover anim eases
toward the hover flag, scale toward `1 + 0.2 * hover_anim` (the freshly
updated hover anim), offset toward 0, all at rate `0.2`/tick.  The `Bool`
is this button's contribution to `btns_moving`. -/
def btnStep (b : Btn) : Btn × Bool :=
  (⟨b.scale +
      ((1 + (1/5) * (b.hoverAnim + ((if b.hoverState then 1 else 0) - b.hoverAnim) * (1/5)))
        - b.scale) * (1/5),
    b.offset + (0 - b.offset) * (1/5),
    b.hoverAnim + ((if b.hoverState then 1 else 0) - b.hoverAnim) * (1/5),
    b.hoverState⟩,
   decide (|(b.scale +
      ((1 + (1/5) * (b.hoverAnim + ((if b.hoverState then 1 else 0) - b.hoverAnim) * (1/5)))
        - b.scale) * (1/5)) -
      (1 + (1/5) * (b.hoverAnim + ((if b.hoverState then 1 else 0) - b.hoverAnim) * (1/5)))| > 1/1000) ||
   decide (|b.offset + (0 - b.offset) * (1/5)| > 1/10) ||
   decide (|(b.hoverAnim + ((if b.hoverState then 1 else 0) - b.hoverAnim) * (1/5)) -
      (if b.hoverState then 1 else 0)| > 1/100))

/-- `DynamicIsland._animate_buttons`: the loop over prev/play/next;
`btns_moving` is the disjunction of the three per-button tests. -/
def animateButtons (s : IslandState) : IslandState × Bool :=
  ({ s with btn_prev := (btnStep s.btn_prev).1,
            btn_play := (btnStep s.btn_play).1,
            btn_next := (btnStep s.btn_next).1 },
   (btnStep s.btn_prev).2 || (btnStep s.btn_play).2 || (btnStep s.btn_next).2)

/-- One monotone art-transition counter (lines 312-321): while active add
`inc`, clamping at 1 and clearing the active flag on arrival. -/
def flipStep (active : Bool) (p inc : ℚ) : ℚ × Bool :=
  if active then
    if p + inc ≥ 1 then (1, false) else (p + inc, true)
  else (p, active)

/-- `DynamicIsland._animate_album_art`: flip at `+0.05`/tick and fade at
`+0.04`/tick. -/
def animateAlbumArt (s : IslandState) : IslandState :=
  { s with
    art_flip_progress := (flipStep s.is_flipping_art s.art_flip_progress (1/20)).1,
    is_flipping_art := (flipStep s.is_flipping_art s.art_flip_progress (1/20)).2,
    art_fade_progress := (flipStep s.is_fading_art s.art_fade_progress (1/25)).1,
    is_fading_art := (flipStep s.is_fading_art s.art_fade_progress (1/25)).2 }

/-- `DynamicIsland._animate_temp_mode(now_time)`: timeout after
`TEMP_MODE_DURATION` seconds from activation, progress easing toward
1 while active (including the deactivating tick) and toward 0 while
inactive.  The `Bool` is the returned `text_animating` test
`0.001 < progress < 0.999` on the updated progress. -/
def animateTempMode (now : ℚ) (s : IslandState) : IslandState × Bool :=
  ({ s with
     temp_mode_active :=
       if s.temp_mode_active then
         !(decide (now - s.temp_mode_start_time > TEMP_MODE_DURATION))
       else false,
     temp_mode_progress :=
       if s.temp_mode_active then
         s.temp_mode_progress + (1 - s.temp_mode_progress) * (1/10)
       else s.temp_mode_progress + (0 - s.temp_mode_progress) * (1/10) },
   (if s.temp_mode_active then
      decide ((s.temp_mode_progress + (1 - s.temp_mode_progress) * (1/10)) > 1/1000) &&
      decide ((s.temp_mode_progress + (1 - s.temp_mode_progress) * (1/10)) < 999/1000)
    else
      decide ((s.temp_mode_progress + (0 - s.temp_mode_progress) * (1/10)) > 1/1000) &&
      decide ((s.temp_mode_progress + (0 - s.temp_mode_progress) * (1/10)) < 999/1000)))

/-- Lines 372-376 of `_animate_visualizer`: the synthetic waveform target
for bar `i` at time `t` with phase `offset`,
`((sin(5t+o) + sin(12t+2o) + sin(2t+0.1 i) + 3) / 6) ^ 2.5`. -/
noncomputable def visTarget (t offset : ℝ) (i : ℕ) : ℝ :=
  ((Real.sin (t * 5 + offset) + Real.sin (t * 12 + offset * 2) +
    Real.sin (t * 2 + (i : ℝ) * (1/10)) + 3) / 6) ^ ((5 : ℝ)/2)

/-- Lines 371-379 of `_animate_visualizer`, one bar: ease toward the
waveform target at rate 0.3 while playing, toward the resting value 0.05
at rate 0.1 while paused. -/
noncomputable def visBarStep (playing : Bool) (t offset : ℝ) (i : ℕ) (bar : ℝ) : ℝ :=
  if playing then bar + (visTarget t offset i - bar) * (3/10)
  else bar + (1/20 - bar) * (1/10)

/-- Lines 368-369 of `_animate_visualizer`: the global multiplier easing
toward 1 (playing) or 0 (paused) at rate 0.1. -/
def visMultStep (playing : Bool) (m : ℚ) : ℚ :=
  m + ((if playing then 1 else 0) - m) * (1/10)

/-- `DynamicIsland._animate_visualizer(now_time)`. -/
noncomputable def animateVisualizer (now : ℚ) (s : IslandState) : IslandState :=
  { s with
    vis_multiplier := visMultStep s.is_playing s.vis_multiplier,
    vis_bars := fun i =>
      visBarStep s.is_playing (now : ℝ) (s.vis_offsets i) i (s.vis_bars i) }

/-- Python float `% 360` for the CD rotation (line 267). -/
def qmod360 (x : ℚ) : ℚ := x - 360 * ⌊x / 360⌋

/-- The per-tick booleans `game_loop` feeds into `should_repaint`, plus the
tick's `target_bar` value. -/
structure TickFlags where
  btns_moving : Bool
  expand_animating : Bool
  text_animating : Bool
  text_changing : Bool
  box_fading : Bool
  is_scrolling : Bool
  idle_animating : Bool
  target_bar : ℚ

/-- `DynamicIsland.game_loop` (lines 233-272): every animator advanced in
the code's order — spring, buttons, album art, dt computation with the
`dt > 1.0 → dt = 0` sleep clamp, expand progress, temp mode, text-change
blend, box fade, scroll, visualizer, bar hover, idle scale, CD rotation,
playback-position extrapolation clamped to the duration.  Returns the end
state and the intermediate booleans used by `should_repaint`. -/
noncomputable def tickCore (now : ℚ) (s : IslandState) : IslandState × TickFlags :=
  let s1 := (animateSpring s).1
  let r2 := animateButtons s1
  let s2 := r2.1
  let s3 := animateAlbumArt s2
  let dt : ℚ := if now - s3.last_tick_time > 1 then 0 else now - s3.last_tick_time
  let s4 : IslandState := { s3 with last_tick_time := now }
  let target_expand : ℚ := if s4.is_expanded then 1 else 0
  let s5 : IslandState :=
    { s4 with expand_progress :=
        s4.expand_progress + (target_expand - s4.expand_progress) * (1/10) }
  let r6 := animateTempMode now s5
  let s6 := r6.1
  let s7 : IslandState :=
    { s6 with text_change_progress :=
        s6.text_change_progress + (1 - s6.text_change_progress) * (1/10) }
  let s8 : IslandState :=
    { s7 with box_fade_anim :=
        s7.box_fade_anim + (1 - s7.box_fade_anim) * (1/20) }
  let r9 := animateScroll dt s8
  let s9 := r9.1
  let s10 := animateVisualizer now s9
  let target_bar : ℚ := if s10.is_bar_hovered then 1 else 0
  let s11 : IslandState :=
    { s10 with bar_hover_anim :=
        s10.bar_hover_anim + (target_bar - s10.bar_hover_anim) * (1/5) }
  let target_idle_scale : ℚ := if s11.title_text = "Idle" then 1 else 0
  let s12 : IslandState :=
    { s11 with idle_scale_anim :=
        s11.idle_scale_anim + (target_idle_scale - s11.idle_scale_anim) * (1/10) }
  let s13 : IslandState :=
    { s12 with cd_rotation :=
        if s12.is_playing then qmod360 (s12.cd_rotation + 3/2) else s12.cd_rotation }
  let s14 : IslandState :=
    { s13 with display_pos :=
        if s13.is_playing = true ∧ s13.media_dur > 0 then
          (if s13.display_pos + dt > s13.media_dur then s13.media_dur
           else s13.display_pos + dt)
        else s13.display_pos }
  (s14,
   ⟨r2.2,
    decide (|s5.expand_progress - target_expand| > 1/1000),
    r6.2,
    decide (s7.text_change_progress < 99/100),
    decide (s8.box_fade_anim < 99/100),
    r9.2,
    decide (|s12.idle_scale_anim - target_idle_scale| > 1/100),
    target_bar⟩)

/-- Lines 274-289 of `game_loop`: the `should_repaint` disjunction exactly
as the code writes it (including the duplicated `is_playing`), evaluated on
the post-tick state and the tick's intermediate booleans. -/
def shouldRepaint (s : IslandState) (f : TickFlags) : Bool :=
  s.is_playing || decide (s.vis_multiplier > 1/100) || s.is_flipping_art ||
  s.is_fading_art || f.btns_moving || f.text_animating || f.text_changing ||
  f.box_fading || s.temp_mode_active ||
  decide (|s.bar_hover_anim - f.target_bar| > 1/100) || f.is_scrolling ||
  s.is_playing || f.idle_animating || f.expand_animating

/-- One full `game_loop` tick: the new state and whether `self.update()`
(a repaint request) was issued. -/
noncomputable def gameLoop (now : ℚ) (s : IslandState) : IslandState × Bool :=
  ((tickCore now s).1, shouldRepaint (tickCore now s).1 (tickCore now s).2)

/-- Modelled from the spec: the repaint disjunction exactly as §4.9 lists
it — is_playing; visualizer multiplier > 0.01; any art transition active;
any button still animating; text still animating (temp-mode or
track-change blend); temp-mode active; bar-hover delta > 0.01; scroll
active; expand-progress not settled — for comparison with the code's
`shouldRepaint`. -/
def specRepaint (s : IslandState) (f : TickFlags) : Bool :=
  s.is_playing || decide (s.vis_multiplier > 1/100) ||
  (s.is_flipping_art || s.is_fading_art) || f.btns_moving ||
  (f.text_animating || f.text_changing) || s.temp_mode_active ||
  decide (|s.bar_hover_anim - f.target_bar| > 1/100) || f.is_scrolling ||
  f.expand_animating

/-- The spec's repaint list amended with the two conditions the code also
tests: the box-fade easing still running and the idle-scale easing still
running. -/
def specRepaintAmended (s : IslandState) (f : TickFlags) : Bool :=
  specRepaint s f || f.box_fading || f.idle_animating

lemma gameLoop_is_playing (now : ℚ) (s : IslandState) :
    (gameLoop now s).1.is_playing = s.is_playing := rfl

lemma gameLoop_media_dur (now : ℚ) (s : IslandState) :
    (gameLoop now s).1.media_dur = s.media_dur := rfl

lemma gameLoop_last_tick (now : ℚ) (s : IslandState) :
    (gameLoop now s).1.last_tick_time = now := rfl

lemma gameLoop_temp_active (now : ℚ) (s : IslandState) :
    (gameLoop now s).1.temp_mode_active =
      (if s.temp_mode_active then
        !(decide (now - s.temp_mode_start_time > TEMP_MODE_DURATION))
       else false) := rfl

/-- The playback-position update a tick performs, as a function of the
previous state (all earlier stages leave the involved fields alone). -/
lemma gameLoop_display_pos (now : ℚ) (s : IslandState) :
    (gameLoop now s).1.display_pos =
      (if s.is_playing = true ∧ s.media_dur > 0 then
        (if s.display_pos +
              (if now - s.last_tick_time > 1 then 0 else now - s.last_tick_time)
              > s.media_dur
         then s.media_dur
         else s.display_pos +
              (if now - s.last_tick_time > 1 then 0 else now - s.last_tick_time))
      else s.display_pos) := rfl

/-- The scroll state a tick produces, as `scrollCore` under the
eligibility gates, as a function of the previous state. -/
lemma gameLoop_scroll_state (now : ℚ) (s : IslandState) :
    (⟨(gameLoop now s).1.scroll_x, (gameLoop now s).1.scroll_wait_timer,
      (gameLoop now s).1.scroll_direction⟩ : Scroll) =
      ((if ((s.is_expanded ||
            (if s.temp_mode_active then
              !(decide (now - s.temp_mode_start_time > TEMP_MODE_DURATION))
             else false)) && !s.text_fits) then
         (if maxScrollOf s.title_text_width s.available_text_w > 0 then
           scrollCore (maxScrollOf s.title_text_width s.available_text_w)
             (if now - s.last_tick_time > 1 then 0 else now - s.last_tick_time)
             ⟨s.scroll_x, s.scroll_wait_timer, s.scroll_direction⟩
          else (⟨s.scroll_x, s.scroll_wait_timer, s.scroll_direction⟩, false))
       else ((⟨0, 0, 0⟩ : Scroll), false)) : Scroll × Bool).1 := rfl

lemma gameLoop_display_le (now : ℚ) (s : IslandState)
    (hp : s.is_playing = true) (hd : s.media_dur > 0) :
    (gameLoop now s).1.display_pos ≤ s.media_dur := by
  rw [gameLoop_display_pos, if_pos (And.intro hp hd)]
  split_ifs <;> linarith

/-- C4 counterexample input: the freshly constructed state with the three
buttons already settled at scale 1, so that among the repaint conditions
only the box-fade easing (`box_fade_anim = 0 → 0.05 < 0.99`) is active. -/
def stateC4 : IslandState :=
  { initState 0 (fun _ => 0) with
    btn_prev := ⟨1, 0, 0, false⟩, btn_play := ⟨1, 0, 0, false⟩,
    btn_next := ⟨1, 0, 0, false⟩ }

/-- C4 counterexample: on `stateC4` the code requests a repaint (the
box-fade easing is still running) while the spec's nine-condition OR is
false — the spec's list omits the box-fade and idle-scale conditions. -/
theorem repaint_list_counterexample :
    (gameLoop 0 stateC4).2 = true ∧
    specRepaint (tickCore 0 stateC4).1 (tickCore 0 stateC4).2 = false := by
  constructor <;>
  norm_num [gameLoop, tickCore, shouldRepaint, specRepaint, animateSpring,
    springStep, springTarget, newVel, animateButtons, btnStep, animateAlbumArt,
    flipStep, animateTempMode, animateScroll, scrollCore, maxScrollOf,
    animateVisualizer, visMultStep, qmod360, stateC4, initState,
    TEMP_MODE_DURATION, IDLE_W, IDLE_H, HOVER_W, HOVER_H, EXPAND_W, EXPAND_H,
    MEDIA_IDLE_W, MEDIA_TEMP_W, MEDIA_HOVER_W, SPRING_STIFFNESS, SPRING_DAMPING]

/-- C4 amended: the repaint request of a tick equals the spec's
nine-condition OR extended with the two conditions the code also tests,
box-fade still easing and idle-scale still easing. -/
theorem repaint_is_amended_or (now : ℚ) (s : IslandState) :
    (gameLoop now s).2 =
      specRepaintAmended (tickCore now s).1 (tickCore now s).2 := by
  unfold gameLoop shouldRepaint specRepaintAmended specRepaint
  refine Bool.eq_iff_iff.mpr ?_
  simp only [Bool.or_eq_true]
  tauto

/-- The scroll state produced by a `scrollCore` step is never positioned
past the advancing end of its phase: forward motion stays strictly below
`max_scroll` and backward motion strictly above 0 (completion clamps and
leaves the phase). -/
lemma scrollCore_post (M d : ℚ) (sc : Scroll) (hM : 0 < M) :
    0 < (scrollCore M d sc).1.wait ∨
      (((scrollCore M d sc).1.dir = 1 → (scrollCore M d sc).1.x < M) ∧
       ((scrollCore M d sc).1.dir = -1 → 0 < (scrollCore M d sc).1.x)) := by
  unfold scrollCore
  split_ifs <;> dsimp only <;>
    first
      | (left; linarith)
      | (right; constructor <;> intro hd <;>
          first | linarith | omega | exact hd.elim)

/-- A `scrollCore` step with `dt = 0` applied right after any `scrollCore`
step leaves `scroll_x` unchanged. -/
lemma scrollCore_dt0_x (M d : ℚ) (sc : Scroll) (hM : 0 < M) :
    (scrollCore M 0 (scrollCore M d sc).1).1.x = (scrollCore M d sc).1.x := by
  have hpost := scrollCore_post M d sc hM
  generalize (scrollCore M d sc).1 = q at hpost ⊢
  rcases hpost with hw | ⟨hf, hb⟩ <;>
  · unfold scrollCore
    split_ifs <;> dsimp only <;>
      first
        | rfl
        | ring1
        | (exfalso; have hx := hf (by assumption); linarith)
        | (exfalso; have hx := hb (by assumption); linarith)

/-- C5 counterexample: two ticks at the same instant starting from the
freshly constructed state — the second tick (dt = 0) still advances the
play button's scale easing (0.36 → 0.488), so tick is not idempotent on
the animator state. -/
theorem tick_idempotence_counterexample :
    (gameLoop 0 (gameLoop 0 (initState 0 (fun _ => 0))).1).1.btn_play.scale ≠
      (gameLoop 0 (initState 0 (fun _ => 0))).1.btn_play.scale := by
  norm_num [gameLoop, tickCore, shouldRepaint, animateSpring, springStep,
    springTarget, newVel, animateButtons, btnStep, animateAlbumArt, flipStep,
    animateTempMode, animateScroll, scrollCore, maxScrollOf, animateVisualizer,
    visMultStep, qmod360, initState, TEMP_MODE_DURATION, IDLE_W, IDLE_H,
    HOVER_W, HOVER_H, EXPAND_W, EXPAND_H, MEDIA_IDLE_W, MEDIA_TEMP_W,
    MEDIA_HOVER_W, SPRING_STIFFNESS, SPRING_DAMPING]

/-- C5 amended: a second `tick(now)` at the same instant (dt = 0) leaves
the dt-scaled quantities unchanged — the playback position `display_pos`
and the scroll position `scroll_x` — while per-tick eased animator
quantities (button scale/offset/hover, art progress, temp-mode, box-fade,
expand, idle-scale, visualizer easing, spring) may still advance, one
easing step per call. -/
theorem tick_dt_zero_amended (now : ℚ) (s : IslandState) :
    (gameLoop now (gameLoop now s).1).1.display_pos
      = (gameLoop now s).1.display_pos ∧
    (gameLoop now (gameLoop now s).1).1.scroll_x
      = (gameLoop now s).1.scroll_x := by
  constructor
  · -- display position: dt = 0 and the first tick already clamped
    rw [gameLoop_display_pos now (gameLoop now s).1, gameLoop_last_tick now s,
      sub_self, if_neg (by norm_num : ¬ (0 : ℚ) > 1)]
    by_cases hc : (gameLoop now s).1.is_playing = true ∧
        (gameLoop now s).1.media_dur > 0
    · rw [if_pos hc, add_zero]
      have hle : (gameLoop now s).1.display_pos ≤ (gameLoop now s).1.media_dur :=
        gameLoop_display_le now s
          (by rw [← gameLoop_is_playing now s]; exact hc.1)
          (by rw [← gameLoop_media_dur now s]; exact hc.2)
      rw [if_neg (not_lt.mpr hle)]
    · rw [if_neg hc]
  · -- scroll position: eligibility and max_scroll are unchanged, the
    -- temp-mode deactivation decision is stable, and a dt = 0 step of the
    -- state machine moves nothing
    have h2 := gameLoop_scroll_state now (gameLoop now s).1
    have h1 := gameLoop_scroll_state now s
    have hactive : (if (gameLoop now s).1.temp_mode_active then
        !(decide (now - (gameLoop now s).1.temp_mode_start_time
          > TEMP_MODE_DURATION)) else false)
        = (gameLoop now s).1.temp_mode_active := by
      rw [gameLoop_temp_active now s,
        show (gameLoop now s).1.temp_mode_start_time = s.temp_mode_start_time
          from rfl]
      by_cases ht : s.temp_mode_active = true
      · rw [ht]
        by_cases hdec : now - s.temp_mode_start_time > TEMP_MODE_DURATION
        · simp [hdec]
        · simp [hdec]
      · simp at ht
        rw [ht]
        simp
    have hxp : (gameLoop now (gameLoop now s).1).1.scroll_x
        = (⟨(gameLoop now (gameLoop now s).1).1.scroll_x,
            (gameLoop now (gameLoop now s).1).1.scroll_wait_timer,
            (gameLoop now (gameLoop now s).1).1.scroll_direction⟩ : Scroll).x :=
      rfl
    rw [hxp, h2, gameLoop_last_tick now s, sub_self,
      if_neg (by norm_num : ¬ (0 : ℚ) > 1), hactive,
      show (gameLoop now s).1.is_expanded = s.is_expanded from rfl,
      show (gameLoop now s).1.text_fits = s.text_fits from rfl,
      show (gameLoop now s).1.title_text_width = s.title_text_width from rfl,
      show (gameLoop now s).1.available_text_w = s.available_text_w from rfl,
      gameLoop_temp_active now s]
    -- case split on the (shared) eligibility and max-scroll gates
    by_cases he : ((s.is_expanded ||
        (if s.temp_mode_active then
          !(decide (now - s.temp_mode_start_time > TEMP_MODE_DURATION))
         else false)) && !s.text_fits) = true
    · rw [if_pos he]
      by_cases hm : maxScrollOf s.title_text_width s.available_text_w > 0
      · rw [if_pos hm]
        have hfirst : (⟨(gameLoop now s).1.scroll_x,
            (gameLoop now s).1.scroll_wait_timer,
            (gameLoop now s).1.scroll_direction⟩ : Scroll)
            = (scrollCore (maxScrollOf s.title_text_width s.available_text_w)
                (if now - s.last_tick_time > 1 then 0 else now - s.last_tick_time)
                ⟨s.scroll_x, s.scroll_wait_timer, s.scroll_direction⟩).1 := by
          rw [h1, if_pos he, if_pos hm]
        rw [hfirst, scrollCore_dt0_x _ _ _ hm]
        exact (congrArg Scroll.x hfirst).symm
      · rw [if_neg hm]
    · rw [if_neg he]
      have h0 := congrArg Scroll.x h1
      rw [if_neg he] at h0
      exact h0.symm

@[simp] lemma baseSync_last_tick (title artist : String) (dur : ℚ)
    (s : IslandState) :
    (baseSync title artist dur s).last_tick_time = s.last_tick_time := rfl

@[simp] lemma trackReset_last_tick (c : Bool) (now : ℚ) (t : String)
    (s : IslandState) :
    (trackReset c now t s).last_tick_time = s.last_tick_time := by
  unfold trackReset; split <;> rfl

@[simp] lemma artSync_last_tick (o : ImgOracle) (b : List ℕ) (s : IslandState) :
    (artSync o b s).last_tick_time = s.last_tick_time := by
  unfold artSync; (repeat' split) <;> rfl

@[simp] lemma posAdopt_last_tick (c p : Bool) (r : ℚ) (s : IslandState) :
    (posAdopt c p r s).last_tick_time = s.last_tick_time := by
  unfold posAdopt; (repeat' split) <;> rfl

/-- A track-changing snapshot adopts the remote position, play state and
duration, and does not touch the tick clock. -/
lemma onMetadataSync_snapshot_fields (oracle : ImgOracle) (now : ℚ)
    (title artist : String) (isPlaying : Bool) (remotePos dur : ℚ)
    (imgBytes : List ℕ) (s : IslandState) (h : s.raw_title ≠ title) :
    (onMetadataSync oracle now title artist isPlaying remotePos dur imgBytes s).display_pos
      = remotePos ∧
    (onMetadataSync oracle now title artist isPlaying remotePos dur imgBytes s).is_playing
      = isPlaying ∧
    (onMetadataSync oracle now title artist isPlaying remotePos dur imgBytes s).media_dur
      = dur ∧
    (onMetadataSync oracle now title artist isPlaying remotePos dur imgBytes s).last_tick_time
      = s.last_tick_time := by
  have hch : (s.raw_title != title) = true := by simp [h]
  unfold onMetadataSync
  rw [hch, posAdopt_changed]
  simp

/-- Ticks spaced exactly one second apart: with `t0` the `last_tick_time`
before the first tick, tick `k` runs at `t0 + k`, so every tick computes
`dt = 1`. -/
noncomputable def unitTicks (t0 : ℚ) (s : IslandState) : ℕ → IslandState
  | 0 => s
  | n + 1 => (gameLoop (t0 + ((n + 1 : ℕ) : ℚ)) (unitTicks t0 s n)).1

lemma unitTicks_invariant (t0 : ℚ) (s0 : IslandState)
    (h1 : s0.is_playing = true) (h2 : s0.media_dur = 200)
    (h3 : s0.display_pos = 0) (h4 : s0.last_tick_time = t0) :
    ∀ n : ℕ, (unitTicks t0 s0 n).is_playing = true ∧
      (unitTicks t0 s0 n).media_dur = 200 ∧
      (unitTicks t0 s0 n).last_tick_time = t0 + (n : ℚ) ∧
      (unitTicks t0 s0 n).display_pos = min (n : ℚ) 200 := by
  intro n
  induction n with
  | zero =>
    refine ⟨h1, h2, by simpa using h4, ?_⟩
    rw [show (unitTicks t0 s0 0) = s0 from rfl, h3, Nat.cast_zero,
      min_eq_left (by norm_num : (0:ℚ) ≤ 200)]
  | succ k ih =>
    obtain ⟨hp, hd, hl, hx⟩ := ih
    have hstep : unitTicks t0 s0 (k + 1)
        = (gameLoop (t0 + ((k + 1 : ℕ) : ℚ)) (unitTicks t0 s0 k)).1 := rfl
    refine ⟨?_, ?_, ?_, ?_⟩
    · rw [hstep, gameLoop_is_playing]; exact hp
    · rw [hstep, gameLoop_media_dur]; exact hd
    · rw [hstep, gameLoop_last_tick]
    · rw [hstep, gameLoop_display_pos, hl, hp, hd, hx]
      have hdt : t0 + ((k + 1 : ℕ) : ℚ) - (t0 + (k : ℚ)) = 1 := by
        push_cast; ring
      rw [hdt, if_neg (by norm_num : ¬ (1:ℚ) > 1),
        if_pos (And.intro rfl (by norm_num : (200:ℚ) > 0))]
      rcases le_or_lt (200 : ℚ) (k : ℚ) with hk | hk
      · rw [min_eq_right hk, if_pos (by norm_num),
          min_eq_right (by push_cast; linarith)]
      · have hk' : (k : ℚ) + 1 ≤ 200 := by
          have hn : (k : ℕ) < 200 := by exact_mod_cast hk
          have hn' : (k : ℕ) + 1 ≤ 200 := hn
          exact_mod_cast hn'
        rw [min_eq_left (le_of_lt hk), if_neg (by linarith),
          min_eq_left (by push_cast; linarith)]
        push_cast
        ring

/-- C8: after a track-changing snapshot (title "Song A", playing, duration
200, position 0), ticks spaced exactly 1.0 s apart each advance
`display_pos` by their dt (1.0 is not clamped), reaching a value within
0.1 of 5.0 after five ticks; `display_pos` never exceeds the duration 200
for any number of further ticks; and a tick whose dt exceeds 1.0 s clamps
dt to 0 and leaves `display_pos` where it was. -/
theorem end_to_end_position (oracle : ImgOracle) (nowm : ℚ) (artist : String)
    (imgBytes : List ℕ) (s : IslandState) (h : s.raw_title ≠ "Song A") :
    |(unitTicks s.last_tick_time
        (onMetadataSync oracle nowm "Song A" artist true 0 200 imgBytes s) 5).display_pos
      - 5| ≤ 1/10 ∧
    (∀ n : ℕ, (unitTicks s.last_tick_time
        (onMetadataSync oracle nowm "Song A" artist true 0 200 imgBytes s) n).display_pos
      ≤ 200) ∧
    (∀ (u : ℚ) (s' : IslandState), u - s'.last_tick_time > 1 →
      s'.display_pos ≤ s'.media_dur →
      (gameLoop u s').1.display_pos = s'.display_pos) := by
  obtain ⟨hd0, hp0, hdur0, hlt0⟩ :=
    onMetadataSync_snapshot_fields oracle nowm "Song A" artist true 0 200
      imgBytes s h
  have hinv := unitTicks_invariant s.last_tick_time
    (onMetadataSync oracle nowm "Song A" artist true 0 200 imgBytes s)
    hp0 hdur0 hd0 hlt0
  refine ⟨?_, ?_, ?_⟩
  · rw [(hinv 5).2.2.2,
      show ((5:ℕ):ℚ) = 5 by norm_num,
      min_eq_left (by norm_num : (5:ℚ) ≤ 200), sub_self, abs_zero]
    norm_num
  · intro n
    rw [(hinv n).2.2.2]
    exact min_le_right _ _
  · intro u s' hu hle
    rw [gameLoop_display_pos]
    by_cases hc : s'.is_playing = true ∧ s'.media_dur > 0
    · rw [if_pos hc, if_pos hu]
      simp only [add_zero]
      rw [if_neg (not_lt.mpr hle)]
    · rw [if_neg hc]

/-- Witness for `end_to_end_position`: the snapshot applied to the freshly
constructed state (clock at 3), then five and nine unit ticks. -/
theorem end_to_end_position_witness :
    |(unitTicks 3
        (onMetadataSync ⟨fun _ => none, fun _ => (0, 0, 0)⟩ 0 "Song A" "A"
          true 0 200 [] (initState 3 (fun _ => 0))) 5).display_pos - 5| ≤ 1/10 ∧
    (unitTicks 3
        (onMetadataSync ⟨fun _ => none, fun _ => (0, 0, 0)⟩ 0 "Song A" "A"
          true 0 200 [] (initState 3 (fun _ => 0))) 9).display_pos ≤ 200 := by
  have h := end_to_end_position ⟨fun _ => none, fun _ => (0, 0, 0)⟩ 0 "A" []
    (initState 3 (fun _ => 0)) (by decide)
  exact ⟨h.1, h.2.1 9⟩

/-- The bar magnitudes after a sequence of visualizer ticks (each tick a
play flag and a `time.time()` sample), starting from the all-zero
construction state. -/
noncomputable def visRun (offsets : Fin 100 → ℝ)
    (ticks : List (Bool × ℝ)) : Fin 100 → ℝ :=
  ticks.foldl (fun bars pt i => visBarStep pt.1 pt.2 (offsets i) i (bars i))
    (fun _ => 0)

/-- The global multiplier after a sequence of visualizer ticks, from 0. -/
def visMultRun (plays : List Bool) : ℚ :=
  plays.foldl (fun m p => visMultStep p m) 0

lemma visTarget_mem (t offset : ℝ) (i : ℕ) :
    0 ≤ visTarget t offset i ∧ visTarget t offset i ≤ 1 := by
  unfold visTarget
  have h1l := Real.neg_one_le_sin (t * 5 + offset)
  have h1u := Real.sin_le_one (t * 5 + offset)
  have h2l := Real.neg_one_le_sin (t * 12 + offset * 2)
  have h2u := Real.sin_le_one (t * 12 + offset * 2)
  have h3l := Real.neg_one_le_sin (t * 2 + (i : ℝ) * (1/10))
  have h3u := Real.sin_le_one (t * 2 + (i : ℝ) * (1/10))
  have hb0 : (0:ℝ) ≤ (Real.sin (t * 5 + offset) + Real.sin (t * 12 + offset * 2) +
      Real.sin (t * 2 + (i : ℝ) * (1/10)) + 3) / 6 := by linarith
  have hb1 : (Real.sin (t * 5 + offset) + Real.sin (t * 12 + offset * 2) +
      Real.sin (t * 2 + (i : ℝ) * (1/10)) + 3) / 6 ≤ 1 := by linarith
  exact ⟨Real.rpow_nonneg hb0 _, Real.rpow_le_one hb0 hb1 (by norm_num)⟩

lemma visBarStep_mem (playing : Bool) (t offset : ℝ) (i : ℕ) (bar : ℝ)
    (h0 : 0 ≤ bar) (h1 : bar ≤ 1) :
    0 ≤ visBarStep playing t offset i bar ∧
    visBarStep playing t offset i bar ≤ 1 := by
  have ht := visTarget_mem t offset i
  cases playing <;>
    simp only [visBarStep, Bool.false_eq_true, eq_self_iff_true, if_true,
      if_false] <;>
    constructor <;> nlinarith [ht.1, ht.2]

lemma visMultStep_mem (p : Bool) (m : ℚ) (h0 : 0 ≤ m) (h1 : m ≤ 1) :
    0 ≤ visMultStep p m ∧ visMultStep p m ≤ 1 := by
  cases p <;>
    simp only [visMultStep, Bool.false_eq_true, eq_self_iff_true, if_true,
      if_false] <;>
    constructor <;> linarith

lemma visRun_mem_aux (offsets : Fin 100 → ℝ) :
    ∀ (ticks : List (Bool × ℝ)) (bars : Fin 100 → ℝ),
      (∀ j, 0 ≤ bars j ∧ bars j ≤ 1) →
      ∀ j, 0 ≤ (ticks.foldl
          (fun bs pt i => visBarStep pt.1 pt.2 (offsets i) i (bs i)) bars) j ∧
        (ticks.foldl
          (fun bs pt i => visBarStep pt.1 pt.2 (offsets i) i (bs i)) bars) j ≤ 1 := by
  intro ticks
  induction ticks with
  | nil => intro bars hb j; exact hb j
  | cons pt ts ih =>
    intro bars hb j
    rw [List.foldl_cons]
    exact ih _ (fun k =>
      visBarStep_mem pt.1 pt.2 (offsets k) k (bars k) (hb k).1 (hb k).2) j

lemma visMultRun_mem_aux :
    ∀ (plays : List Bool) (m : ℚ), 0 ≤ m → m ≤ 1 →
      0 ≤ plays.foldl (fun a p => visMultStep p a) m ∧
      plays.foldl (fun a p => visMultStep p a) m ≤ 1 := by
  intro plays
  induction plays with
  | nil => intro m h0 h1; exact ⟨h0, h1⟩
  | cons p ps ih =>
    intro m h0 h1
    rw [List.foldl_cons]
    have := visMultStep_mem p m h0 h1
    exact ih _ this.1 this.2

/-- C7: with the 100 phase offsets in `[0, 100)` fixed at construction,
every bar magnitude stays in `[0,1]` after every tick for every play/pause
history and every timestamp (the playing-state waveform target lies in
`[0,1]`, the paused resting target 0.05 lies in `[0,1]`, and each ease step
keeps a bar between its old value and its target), and the global
multiplier likewise stays in `[0,1]`. -/
theorem visualizer_bars_bounded (offsets : Fin 100 → ℝ)
    (hoff : ∀ i : Fin 100, 0 ≤ offsets i ∧ offsets i < 100) :
    (∀ (ticks : List (Bool × ℝ)) (i : Fin 100),
        0 ≤ visRun offsets ticks i ∧ visRun offsets ticks i ≤ 1) ∧
    (∀ plays : List Bool, 0 ≤ visMultRun plays ∧ visMultRun plays ≤ 1) ∧
    (∀ (t : ℝ) (i : Fin 100),
        0 ≤ visTarget t (offsets i) i ∧ visTarget t (offsets i) i ≤ 1) ∧
    (∀ (playing : Bool) (t o : ℝ) (i : ℕ) (b : ℝ),
        min b (if playing then visTarget t o i else 1/20)
          ≤ visBarStep playing t o i b ∧
        visBarStep playing t o i b
          ≤ max b (if playing then visTarget t o i else 1/20)) := by
  refine ⟨?_, ?_, ?_, ?_⟩
  · intro ticks i
    exact visRun_mem_aux offsets ticks (fun _ => 0) (by norm_num) i
  · intro plays
    exact visMultRun_mem_aux plays 0 (le_refl 0) (by norm_num)
  · intro t i
    exact visTarget_mem t (offsets i) i
  · intro playing t o i b
    cases playing <;>
      simp only [visBarStep, Bool.false_eq_true, eq_self_iff_true, if_true,
        if_false] <;>
      constructor
    · rcases le_total b (1/20 : ℝ) with h | h
      · rw [min_eq_left h]; linarith
      · rw [min_eq_right h]; linarith
    · rcases le_total b (1/20 : ℝ) with h | h
      · rw [max_eq_right h]; linarith
      · rw [max_eq_left h]; linarith
    · rcases le_total b (visTarget t o i) with h | h
      · rw [min_eq_left h]; linarith
      · rw [min_eq_right h]; linarith
    · rcases le_total b (visTarget t o i) with h | h
      · rw [max_eq_right h]; linarith
      · rw [max_eq_left h]; linarith

/-- Witness for `visualizer_bars_bounded`: all offsets 0, one playing tick
at t = 0, bar 0; one-element play history. -/
theorem visualizer_bars_bounded_witness :
    (0 ≤ visRun (fun _ => 0) [(true, 0)] (0 : Fin 100) ∧
     visRun (fun _ => 0) [(true, 0)] (0 : Fin 100) ≤ 1) ∧
    (0 ≤ visMultRun [true] ∧ visMultRun [true] ≤ 1) := by
  have h := visualizer_bars_bounded (fun _ => 0)
    (fun i => ⟨le_refl 0, by norm_num⟩)
  exact ⟨h.1 [(true, 0)] (0 : Fin 100), h.2.1 [true]⟩

end WinIsland
